import Mathlib

/-!
Verification of the Cobalt client-side randomization pipeline and its
surrounding operational scripts, as a shallow embedding in Lean 4.

Source-backed models embed the Python under `src/` directly; components
that the source only references (the Forculus and RAPPOR encoders, the
validated config constructor, the Bloom-filter mapper) are modelled from
the specification, each marked `Modelled from the spec:` in its doc
comment.
-/

namespace Cobalt

/-! ## Entries and the help-query randomizer (`src/randomizers/help_query_randomizer.py`) -/

/-- One raw user record as consumed by `HelpQueryRandomizer`: the
`help_query` attribute holds the extracted help-query string. -/
structure Entry where
  help_query : String
  deriving DecidableEq, Repr

/-- The sequence of CSV rows written by `HelpQueryRandomizer.randomize`:
the loop body `writer.writerow([entry.help_query])` appends, for each
entry in order, one row holding the raw `help_query` string (the source's
placeholder emits the plaintext; its TODO says Forculus is the intent). -/
def helpQueryRandomize (entries : List Entry) : List (List String) :=
  entries.foldl (fun rows e => rows ++ [[e.help_query]]) []

/-- Unfolding the writer loop: rows already written are kept in front and
each entry contributes exactly one row with its raw query string. -/
theorem helpQueryRandomize_foldl (entries : List Entry) (acc : List (List String)) :
    entries.foldl (fun rows e => rows ++ [[e.help_query]]) acc
      = acc ++ entries.map (fun e => [e.help_query]) := by
  induction entries generalizing acc with
  | nil => simp
  | cons e rest ih =>
    simp only [List.foldl_cons, List.map_cons]
    rw [ih]
    simp

/-- The full output of one `randomize` run is one row per entry, in order. -/
theorem helpQueryRandomize_eq_map (entries : List Entry) :
    helpQueryRandomize entries = entries.map (fun e => [e.help_query]) := by
  simpa using helpQueryRandomize_foldl entries []

/-! ## The config-parser determinism test
(`src/config/config_parser/test_stable_config_parser.py`) -/

/-- Outcome of running `test_stable_config_parser.main`. -/
inductive ParserTestOutcome where
  | raised (msg : String)
  | passed (printed : String) (exitCode : Nat)
  deriving DecidableEq, Repr

/-- The exception message raised when the two runs disagree. -/
def stableTestExnMsg : String :=
  "Two calls to the config_parser yielded different outputs!"

/-- `test_stable_config_parser.main`, with the two `subprocess.check_output`
byte strings of the twice-invoked identical command passed in explicitly:
it raises when the outputs differ, else prints PASS and returns 0. -/
def stableConfigTestMain (out1 out2 : List Nat) : ParserTestOutcome :=
  if out1 ≠ out2 then ParserTestOutcome.raised stableTestExnMsg
  else ParserTestOutcome.passed "PASS" 0

/-! ## The module-name randomizer
(`src/prototype/randomizers/module_name_randomizer.py`) -/

/-- The `utils.file_util` constants `ModuleNameRandomizer.randomize`
chooses between (their string values live outside this repository slice;
only their identities matter here). -/
inductive FileUtilName where
  | RAPPOR_MODULE_NAME_CONFIG
  | RAPPOR_MODULE_NAME_PR_CONFIG
  | MODULE_NAME_RANDOMIZER_OUTPUT_FILE_NAME
  | MODULE_NAME_PR_RANDOMIZER_OUTPUT_FILE_NAME
  deriving DecidableEq, Repr

/-- A raw record of the prototype pipeline; `ModuleNameRandomizer` only
forwards these, so the field layout is opaque here. -/
structure ProtoEntry where
  fields : List String
  deriving DecidableEq, Repr

/-- The single call `ModuleNameRandomizer.randomize` makes to
`randomizer.randomizeUsingRappor`: the entries forwarded, the list of
`(field index, use bloom filters, config file)` triples, and the output
file. -/
structure RapporInvocation where
  entries : List ProtoEntry
  fieldTriples : List (Nat × Bool × FileUtilName)
  outputFile : FileUtilName
  deriving DecidableEq, Repr

/-- `ModuleNameRandomizer.randomize`: picks the private-release or the
standard config/output pair from `for_private_release`, then invokes
`randomizeUsingRappor` with field index 1 and bloom filters enabled. -/
def moduleNameRandomize (entries : List ProtoEntry)
    (for_private_release : Bool := false) : RapporInvocation :=
  let config_file := if for_private_release
    then FileUtilName.RAPPOR_MODULE_NAME_PR_CONFIG
    else FileUtilName.RAPPOR_MODULE_NAME_CONFIG
  let output_file := if for_private_release
    then FileUtilName.MODULE_NAME_PR_RANDOMIZER_OUTPUT_FILE_NAME
    else FileUtilName.MODULE_NAME_RANDOMIZER_OUTPUT_FILE_NAME
  { entries := entries
  , fieldTriples := [(1, true, config_file)]
  , outputFile := output_file }

/-! ## The container deployment script (`src/tools/container_util.py`) -/

/-- A Python runtime error, as far as these scripts can raise one. -/
inductive PyError where
  | nameError (name : String)
  deriving DecidableEq, Repr

/-- Every module-level name bound in `tools/container_util.py`, in source
order: the imports, the `from process_starter import` names, the module
constants, the comprehension variable `f` (Python 2 leaks it), and the
`def`s. -/
def containerUtilModuleNames : List String :=
  [ "fileinput", "os", "shutil", "subprocess", "sys", "process_starter"
  , "ANALYZER_PRIVATE_KEY_PEM_NAME", "DEFAULT_ANALYZER_PRIVATE_KEY_PEM"
  , "ANALYZER_SERVICE_PATH", "DEFAULT_ANALYZER_SERVICE_PORT"
  , "DEFAULT_REPORT_MASTER_PORT", "DEFAULT_SHUFFLER_PORT"
  , "REGISTERED_CONFIG_DIR", "REPORT_MASTER_PATH", "SHUFFLER_CONFIG_FILE"
  , "SHUFFLER_PATH", "THIS_DIR", "SRC_ROOT_DIR", "OUT_DIR", "SYS_ROOT_DIR"
  , "CONTAINER_REGISTRY_URI", "KUBE_SRC_DIR", "COBALT_COMMON_DOCKER_FILE"
  , "ANALYZER_SERVICE_DOCKER_FILE", "REPORT_MASTER_DOCKER_FILE"
  , "SHUFFLER_DOCKER_FILE", "ANALYZER_SERVICE_DEPLOYMENT_YAML"
  , "ANALYZER_SERVICE_DEPLOYMENT_TEMPLATE_FILE"
  , "REPORT_MASTER_DEPLOYMENT_YAML", "REPORT_MASTER_DEPLOYMENT_TEMPLATE_FILE"
  , "SHUFFLER_DEPLOYMENT_YAML", "SHUFFLER_DEPLOYMENT_TEMPLATE_FILE"
  , "KUBE_OUT_DIR", "ANALYZER_SERVICE_DEPLOYMENT_FILE"
  , "REPORT_MASTER_DEPLOYMENT_FILE", "SHUFFLER_DEPLOYMENT_FILE"
  , "COBALT_COMMON_DOCKER_BUILD_DIR", "ANALYZER_SERVICE_DOCKER_BUILD_DIR"
  , "REPORT_MASTER_DOCKER_BUILD_DIR", "SHUFFLER_DOCKER_BUILD_DIR"
  , "COBALT_COMMON_IMAGE_NAME", "ANALYZER_SERVICE_IMAGE_NAME"
  , "REPORT_MASTER_IMAGE_NAME", "SHUFFLER_IMAGE_NAME"
  , "COBALT_COMMON_SO_FILES", "f", "ROOTS_PEM", "ANALYZER_CONFIG_FILES"
  , "ANALYZER_PRIVATE_KEY_SECRET_NAME"
  , "_ensure_dir", "_set_contents_of_dir", "_build_cobalt_common_deploy_dir"
  , "_build_analyzer_service_deploy_dir", "_build_report_master_deploy_dir"
  , "_build_shuffler_deploy_dir", "_build_docker_image"
  , "build_all_docker_images", "_image_registry_uri"
  , "_push_to_container_registry"
  , "push_analyzer_service_to_container_registry"
  , "push_report_master_to_container_registry"
  , "push_shuffler_to_container_registry", "_replace_tokens_in_template"
  , "_compound_project_name", "_create_secret_from_file", "_delete_secret"
  , "create_analyzer_private_key_secret"
  , "delete_analyzer_private_key_secret", "_start_gke_service"
  , "start_analyzer_service", "start_report_master", "start_shuffler"
  , "_stop_gke_service", "stop_analyzer_service", "stop_report_master"
  , "stop_shuffler", "authenticate", "display", "main" ]

/-- Resolution of a global name in a Python module: found among the
module-level bindings, or a NameError (none of the names this model is
applied to is a Python builtin). -/
def pyResolveGlobal (moduleNames : List String) (name : String) :
    Except PyError Unit :=
  if name ∈ moduleNames then Except.ok ()
  else Except.error (PyError.nameError name)

/-- `container_util.main`: its first statement is the call
`_process_shuffler_yaml_file(...)`, whose very first step resolves that
global name; the three arguments are string literals, so nothing else can
run before the resolution. -/
def containerUtilMain : Except PyError Unit :=
  pyResolveGlobal containerUtilModuleNames "_process_shuffler_yaml_file"

/-! ## The demo visualization builder (`src/tools/demo/generate_viz.py`) -/

/-- One parsed data row of `usage_by_hour.csv`: `int(row[0])` the hour,
`float(row[1])` the estimate, `float(row[2])` the std error (exact
rationals stand in for the Python floats). -/
structure UsageRow where
  hour : Int
  value : ℚ
  stdErr : ℚ
  deriving DecidableEq, Repr

/-- A dictionary in the `data` list built by `buildUsageByHourJs`. -/
structure VizPoint where
  hour : Int
  estimate : ℚ
  low : ℚ
  high : ℚ
  deriving DecidableEq, Repr

/-- The dictionary `buildUsageByHourJs` builds for one CSV row:
`estimate = max(row[1], 0)`, `low = max(row[1] - 1.96*row[2], 0)`,
`high = row[1] + 1.96*row[2]` with no lower clamp on `high`. -/
def vizPointOfRow (row : UsageRow) : VizPoint :=
  { hour := row.hour
  , estimate := max row.value 0
  , low := max (row.value - 196/100 * row.stdErr) 0
  , high := row.value + 196/100 * row.stdErr }

/-- The comprehension `[... for row in reader if reader.line_num > 1]`:
when the loop reaches a row, `lineNum` rows have been read before it, so
`reader.line_num` for this row is `lineNum + 1`. -/
def buildUsageLoop : Nat → List UsageRow → List VizPoint
  | _, [] => []
  | lineNum, r :: rs =>
      if lineNum + 1 > 1 then vizPointOfRow r :: buildUsageLoop (lineNum + 1) rs
      else buildUsageLoop (lineNum + 1) rs

/-- The `data` list of `buildUsageByHourJs`, over the parsed CSV rows. -/
def buildUsageByHourData (rows : List UsageRow) : List VizPoint :=
  buildUsageLoop 0 rows

/-- Once past the first line, the `line_num > 1` guard always holds. -/
theorem buildUsageLoop_of_pos (rows : List UsageRow) (n : Nat) (hn : 0 < n) :
    buildUsageLoop n rows = rows.map vizPointOfRow := by
  induction rows generalizing n with
  | nil => rfl
  | cons r rs ih =>
    have hguard : n + 1 > 1 := by omega
    simp [buildUsageLoop, hguard, ih (n + 1) (by omega)]

/-- The comprehension keeps every row except the first CSV line. -/
theorem buildUsageByHourData_eq (rows : List UsageRow) :
    buildUsageByHourData rows = (rows.drop 1).map vizPointOfRow := by
  cases rows with
  | nil => rfl
  | cons r rs =>
    simp [buildUsageByHourData, buildUsageLoop, buildUsageLoop_of_pos rs 1 (by omega)]

/-! ## Config model (spec §3, §4.1) -/

/-- Errors of the randomization core (spec §7 taxonomy). -/
inductive CoreError where
  | invalidConfig
  | invalidFieldIndex
  deriving DecidableEq, Repr

/-- The numeric parameters a RandomizerConfig is built from: probabilities
`f, p, q` (exact rationals for the Python floats) and integer sizes
`k, h, m, t` (Int, so that non-positive values are representable). -/
structure RandomizerParams where
  f : ℚ
  p : ℚ
  q : ℚ
  k : Int
  h : Int
  m : Int
  t : Int
  deriving DecidableEq, Repr

/-- Modelled from the spec: the RandomizerConfig constructor is absent
from src/ (spec §4.1 describes it). It rejects with InvalidConfig when
any probability lies outside [0,1], when `k`, `h`, `m` or `t` is
non-positive, or when `h > k`; otherwise it returns the validated
parameters. -/
def RandomizerConfig.construct (prm : RandomizerParams) :
    Except CoreError RandomizerParams :=
  if prm.f < 0 ∨ 1 < prm.f ∨ prm.p < 0 ∨ 1 < prm.p ∨ prm.q < 0 ∨ 1 < prm.q
      ∨ prm.k ≤ 0 ∨ prm.h ≤ 0 ∨ prm.m ≤ 0 ∨ prm.t ≤ 0 ∨ prm.k < prm.h
  then Except.error CoreError.invalidConfig
  else Except.ok prm

/-! ## Bloom-filter mapper (spec §4.2) -/

/-- Modelled from the spec: the hash family is an implementation choice
(spec §9) constrained to be deterministic and seeded by
`(cohort, hash index)`; a 32-bit polynomial rolling hash over the UTF-8
code points stands in for it. -/
def hashString (cohort : Nat) (index : Nat) (v : String) : Nat :=
  v.toList.foldl (fun acc ch => (acc * 31 + ch.toNat) % 2 ^ 32)
    ((cohort * 7919 + index * 104729 + 17) % 2 ^ 32)

/-- The RAPPOR side of a validated config, with the sizes as the naturals
they are after validation. -/
structure RapporConfig where
  k : Nat
  h : Nat
  f : ℚ
  p : ℚ
  q : ℚ
  m : Nat
  deriving DecidableEq, Repr

/-- Validity of a RAPPOR config (spec §3 invariant). -/
def RapporConfig.Valid (cfg : RapporConfig) : Prop :=
  0 < cfg.k ∧ 0 < cfg.h ∧ cfg.h ≤ cfg.k ∧ 0 < cfg.m
    ∧ 0 ≤ cfg.f ∧ cfg.f ≤ 1 ∧ 0 ≤ cfg.p ∧ cfg.p ≤ 1 ∧ 0 ≤ cfg.q ∧ cfg.q ≤ 1

instance (cfg : RapporConfig) : Decidable cfg.Valid := by
  unfold RapporConfig.Valid
  infer_instance

/-- Modelled from the spec: `mapToBloom(value, cohort, config)` (spec
§4.2, absent from src/). For each of the `h` hash functions seeded by
`(cohort, hash index)`, light the bit at the hash value mod `k`; OR the
single-bit vectors together (duplicate positions collapse). -/
def mapToBloom (v : String) (cohort : Nat) (cfg : RapporConfig) : List Bool :=
  (List.range cfg.h).foldl
    (fun bv i => bv.set (hashString cohort i v % cfg.k) true)
    (List.replicate cfg.k false)

/-- Folding bit-sets over any index list never changes the width. -/
theorem foldl_set_length (idxs : List Nat) (pos : Nat → Nat) (bv : List Bool) :
    (idxs.foldl (fun acc i => acc.set (pos i) true) bv).length = bv.length := by
  induction idxs generalizing bv with
  | nil => rfl
  | cons i rest ih => simp [List.foldl_cons, ih, List.length_set]

/-- The Bloom filter is always a `k`-bit vector. -/
theorem mapToBloom_length (v : String) (cohort : Nat) (cfg : RapporConfig) :
    (mapToBloom v cohort cfg).length = cfg.k := by
  unfold mapToBloom
  rw [foldl_set_length (List.range cfg.h) (fun i => hashString cohort i v % cfg.k)]
  exact List.length_replicate cfg.k false

/-! ## Forculus encoder (spec §4.4) -/

/-- A generic entry of the core pipeline: an ordered tuple of field
values with read-only indexed access (spec §3, §4.1). -/
structure CoreEntry where
  fields : List String
  deriving DecidableEq, Repr

/-- The Forculus parameters: the decryption threshold `t` (spec §3). -/
structure ForculusConfig where
  t : Int
  deriving DecidableEq, Repr

/-- Modelled from the spec: the per-entry Forculus share (spec §4.4,
absent from src/ — the help-query randomizer's TODO names it as the
intended callee). The share is derived deterministically from the
plaintext and the threshold; its representation is a numeric digest, so
the report never carries the raw string. -/
def forculusCiphertext (t : Int) (plaintext : String) : Nat :=
  plaintext.toList.foldl (fun acc ch => (acc * 131 + ch.toNat + 1) % 2 ^ 64)
    ((t.toNat * 2654435761 + 3) % 2 ^ 64)

/-- Modelled from the spec: `Forculus encode(entry, fieldIndex, config)`
(spec §4.4): extract the field, fail with InvalidFieldIndex when the
index is not on the entry's schema, fail with InvalidConfig when the
threshold `t < 1`, otherwise produce the threshold ciphertext. -/
def forculusEncode (entry : CoreEntry) (fieldIndex : Nat)
    (cfg : ForculusConfig) : Except CoreError Nat :=
  match entry.fields.get? fieldIndex with
  | none => Except.error CoreError.invalidFieldIndex
  | some v =>
      if cfg.t < 1 then Except.error CoreError.invalidConfig
      else Except.ok (forculusCiphertext cfg.t v)

/-! ## RAPPOR encoder (spec §4.3) -/

/-- A deterministic stream of uniform draws in `[0,1)` with a cursor: the
shallow embedding of the (cryptographically sound) randomness source; the
encoder is a deterministic function of the stream. -/
structure RandState where
  stream : Nat → ℚ
  pos : Nat

/-- Half of a rational, written on num/den so that concrete values reduce
inside the kernel. -/
def ratHalf (f : ℚ) : ℚ := mkRat f.num (2 * f.den)

/-- The halving really is division by two. -/
theorem ratHalf_eq (f : ℚ) : ratHalf f = f / 2 := by
  rw [ratHalf, Rat.mkRat_eq_div]
  push_cast
  rw [div_eq_div_iff (by positivity) (two_ne_zero)]
  nth_rewrite 2 [← Rat.num_div_den f]
  field_simp
  ring

/-- One permanent-randomized-response bit: with probability `f/2` force 1,
with probability `f/2` force 0, else keep the true bit (spec §4.3 stage 1),
decided by one uniform draw `u`. -/
def prrBit (f : ℚ) (b : Bool) (u : ℚ) : Bool :=
  if u < ratHalf f then true
  else if u < f then false
  else b

/-- One instantaneous-randomized-response bit: report 1 with probability
`q` when the permanent bit is 1 and with probability `p` when it is 0
(spec §4.3 stage 2), decided by one uniform draw `u`. -/
def irrBit (p q : ℚ) (b : Bool) (u : ℚ) : Bool :=
  decide (u < if b then q else p)

/-- Apply a per-bit noise function to a bit vector, consuming one fresh
draw from the stream per bit, independent draws per bit. -/
def noiseBits (noise : Bool → ℚ → Bool) :
    List Bool → RandState → List Bool × RandState
  | [], st => ([], st)
  | b :: rest, st =>
      let u := st.stream st.pos
      let (tail, st2) := noiseBits noise rest ⟨st.stream, st.pos + 1⟩
      (noise b u :: tail, st2)

/-- The permanent-response cache of one run, keyed by
`(secret, field index, cohort)` (spec §4.3, §9: an explicit cache object
passed into the encoder). -/
structure PrrCache where
  entries : List ((String × Nat × Nat) × List Bool)
  deriving DecidableEq, Repr

/-- Lookup of a key in the cache's association list. -/
def assocFind (key : String × Nat × Nat) :
    List ((String × Nat × Nat) × List Bool) → Option (List Bool)
  | [] => none
  | kv :: rest => if kv.1 = key then some kv.2 else assocFind key rest

/-- The output report: cohort id plus the randomized bit vector; no user
identifier and no raw field value (spec §3). -/
structure RapporReport where
  cohort : Nat
  bits : List Bool
  deriving DecidableEq, Repr

/-- The full result of one encode call; `prrUsed` is the cached permanent
response `Bprime` the call used (the test hook of spec §8). -/
structure RapporOut where
  report : RapporReport
  prrUsed : List Bool
  cache : PrrCache
  state : RandState

/-- Modelled from the spec: `encode(entry value, cohort, config, cache)`
(spec §4.3, absent from src/). The true Bloom filter is mapped
deterministically; the permanent response is looked up in the cache by
`(secret, field, cohort)` and computed-and-inserted only on a miss; the
instantaneous response is sampled freshly from the stream on every call. -/
def rapporEncode (cfg : RapporConfig) (secret : String) (fieldIndex : Nat)
    (cohort : Nat) (value : String) (cache : PrrCache) (st : RandState) :
    RapporOut :=
  match assocFind (secret, fieldIndex, cohort) cache.entries with
  | some bp =>
      { report := { cohort := cohort
                  , bits := (noiseBits (irrBit cfg.p cfg.q) bp st).1 }
      , prrUsed := bp
      , cache := cache
      , state := (noiseBits (irrBit cfg.p cfg.q) bp st).2 }
  | none =>
      let bp := (noiseBits (prrBit cfg.f) (mapToBloom value cohort cfg) st).1
      let st2 := (noiseBits (prrBit cfg.f) (mapToBloom value cohort cfg) st).2
      { report := { cohort := cohort
                  , bits := (noiseBits (irrBit cfg.p cfg.q) bp st2).1 }
      , prrUsed := bp
      , cache := ⟨((secret, fieldIndex, cohort), bp) :: cache.entries⟩
      , state := (noiseBits (irrBit cfg.p cfg.q) bp st2).2 }

/-- On a cache hit the encoder reuses the cached permanent response and
leaves the cache unchanged. -/
theorem rapporEncode_hit (cfg : RapporConfig) (secret : String)
    (fieldIndex cohort : Nat) (value : String) (cache : PrrCache)
    (st : RandState) (bp : List Bool)
    (h : assocFind (secret, fieldIndex, cohort) cache.entries = some bp) :
    (rapporEncode cfg secret fieldIndex cohort value cache st).prrUsed = bp ∧
    (rapporEncode cfg secret fieldIndex cohort value cache st).cache = cache := by
  unfold rapporEncode
  rw [h]
  exact ⟨rfl, rfl⟩

/-- On a cache miss the encoder samples the permanent response and inserts
it at the head of the cache under the `(secret, field, cohort)` key. -/
theorem rapporEncode_miss (cfg : RapporConfig) (secret : String)
    (fieldIndex cohort : Nat) (value : String) (cache : PrrCache)
    (st : RandState)
    (h : assocFind (secret, fieldIndex, cohort) cache.entries = none) :
    (rapporEncode cfg secret fieldIndex cohort value cache st).prrUsed
      = (noiseBits (prrBit cfg.f) (mapToBloom value cohort cfg) st).1 ∧
    (rapporEncode cfg secret fieldIndex cohort value cache st).cache
      = ⟨((secret, fieldIndex, cohort),
          (noiseBits (prrBit cfg.f) (mapToBloom value cohort cfg) st).1)
          :: cache.entries⟩ := by
  unfold rapporEncode
  rw [h]
  exact ⟨rfl, rfl⟩

/-- Two successive encodings under the same `(secret, field, cohort)` key
use the same permanent randomized response, whatever the values encoded
and the prior cache and stream state. -/
theorem rapporEncode_prr_stable (cfg : RapporConfig) (secret : String)
    (fieldIndex cohort : Nat) (v1 v2 : String) (cache : PrrCache)
    (st : RandState) :
    (rapporEncode cfg secret fieldIndex cohort v2
        (rapporEncode cfg secret fieldIndex cohort v1 cache st).cache
        (rapporEncode cfg secret fieldIndex cohort v1 cache st).state).prrUsed
      = (rapporEncode cfg secret fieldIndex cohort v1 cache st).prrUsed := by
  cases h : assocFind (secret, fieldIndex, cohort) cache.entries with
  | some bp =>
      have h1 := rapporEncode_hit cfg secret fieldIndex cohort v1 cache st bp h
      rw [h1.2]
      have h2 := rapporEncode_hit cfg secret fieldIndex cohort v2 cache
        (rapporEncode cfg secret fieldIndex cohort v1 cache st).state bp h
      rw [h2.1, h1.1]
  | none =>
      have h1 := rapporEncode_miss cfg secret fieldIndex cohort v1 cache st h
      rw [h1.2]
      have hfind : assocFind (secret, fieldIndex, cohort)
          (((secret, fieldIndex, cohort),
            (noiseBits (prrBit cfg.f) (mapToBloom v1 cohort cfg) st).1)
            :: cache.entries)
          = some (noiseBits (prrBit cfg.f) (mapToBloom v1 cohort cfg) st).1 := by
        simp [assocFind]
      have h2 := rapporEncode_hit cfg secret fieldIndex cohort v2
        ⟨((secret, fieldIndex, cohort),
          (noiseBits (prrBit cfg.f) (mapToBloom v1 cohort cfg) st).1)
          :: cache.entries⟩
        (rapporEncode cfg secret fieldIndex cohort v1 cache st).state
        (noiseBits (prrBit cfg.f) (mapToBloom v1 cohort cfg) st).1 hfind
      rw [h2.1, h1.1]

/-- Unfolding `forculusEncode` on a missing field. -/
theorem forculusEncode_of_none (entry : CoreEntry) (fieldIndex : Nat)
    (cfg : ForculusConfig) (h : entry.fields.get? fieldIndex = none) :
    forculusEncode entry fieldIndex cfg
      = Except.error CoreError.invalidFieldIndex := by
  unfold forculusEncode
  rw [h]

/-- Unfolding `forculusEncode` on a present field. -/
theorem forculusEncode_of_some (entry : CoreEntry) (fieldIndex : Nat)
    (cfg : ForculusConfig) (v : String)
    (h : entry.fields.get? fieldIndex = some v) :
    forculusEncode entry fieldIndex cfg
      = if cfg.t < 1 then Except.error CoreError.invalidConfig
        else Except.ok (forculusCiphertext cfg.t v) := by
  unfold forculusEncode
  rw [h]

/-! ## Claim theorems -/

/-- C1: the claim says `HelpQueryRandomizer.randomize` emits a Forculus
threshold ciphertext and never writes the raw field value; the code at
`src/randomizers/help_query_randomizer.py:36-38` writes the raw
`help_query` plaintext itself as the output row (its TODO marks the
Forculus invocation as missing), so the plaintext IS the output. -/
theorem c1_plaintext_emitted :
    helpQueryRandomize [{ help_query := "how do I mute" }]
      = [["how do I mute"]] := rfl

/-- C2: a `HelpQueryRandomizer.randomize` run writes exactly one output
row per input entry, none dropped and none duplicated, and the rows
appear in input order: the i-th row holds the i-th entry's field. -/
theorem c2_one_row_per_entry (entries : List Entry) :
    (helpQueryRandomize entries).length = entries.length ∧
    ∀ i, (h : i < entries.length) →
      (helpQueryRandomize entries).get? i
        = some [(entries.get ⟨i, h⟩).help_query] := by
  constructor
  · rw [helpQueryRandomize_eq_map, List.length_map]
  · intro i h
    rw [helpQueryRandomize_eq_map, List.get?_map, List.get?_eq_get h]
    rfl

/-- Witness for C2 at a two-entry batch: the second row is the second
entry's field. -/
theorem c2_one_row_per_entry_witness :
    (helpQueryRandomize [⟨"ask"⟩, ⟨"print this"⟩]).get? 1
      = some ["print this"] :=
  (c2_one_row_per_entry [⟨"ask"⟩, ⟨"print this"⟩]).2 1 (by decide)

/-- C3: the Forculus encode operation fails with InvalidFieldIndex exactly
when the requested field is off the entry's schema, fails with
InvalidConfig exactly when the field exists but the threshold `t < 1`, and
in every remaining case succeeds — there is no other failure mode. -/
theorem c3_forculus_failure_modes (entry : CoreEntry) (fieldIndex : Nat)
    (cfg : ForculusConfig) :
    (forculusEncode entry fieldIndex cfg
        = Except.error CoreError.invalidFieldIndex
      ↔ entry.fields.length ≤ fieldIndex) ∧
    (forculusEncode entry fieldIndex cfg = Except.error CoreError.invalidConfig
      ↔ (fieldIndex < entry.fields.length ∧ cfg.t < 1)) ∧
    ((∃ c, forculusEncode entry fieldIndex cfg = Except.ok c)
      ↔ (fieldIndex < entry.fields.length ∧ 1 ≤ cfg.t)) := by
  cases h : entry.fields.get? fieldIndex with
  | none =>
      have hlen : entry.fields.length ≤ fieldIndex := List.get?_eq_none.mp h
      rw [forculusEncode_of_none entry fieldIndex cfg h]
      refine ⟨iff_of_true rfl hlen, ?_, ?_⟩
      · exact iff_of_false
          (fun heq => by injection heq with h2; exact CoreError.noConfusion h2)
          (fun hc => absurd hc.1 (Nat.not_lt.mpr hlen))
      · exact iff_of_false (fun hex => Except.noConfusion hex.choose_spec)
          (fun hc => absurd hc.1 (Nat.not_lt.mpr hlen))
  | some v =>
      have hlt : fieldIndex < entry.fields.length := by
        by_contra hc
        rw [List.get?_eq_none.mpr (Nat.le_of_not_lt hc)] at h
        exact Option.noConfusion h
      rw [forculusEncode_of_some entry fieldIndex cfg v h]
      by_cases ht : cfg.t < 1
      · rw [if_pos ht]
        refine ⟨?_, iff_of_true rfl ⟨hlt, ht⟩, ?_⟩
        · exact iff_of_false
            (fun heq => by injection heq with h2; exact CoreError.noConfusion h2)
            (fun hc => absurd hlt (Nat.not_lt.mpr hc))
        · exact iff_of_false (fun hex => Except.noConfusion hex.choose_spec)
            (fun hc => absurd hc.2 (not_le.mpr ht))
      · rw [if_neg ht]
        refine ⟨?_, ?_, iff_of_true ⟨forculusCiphertext cfg.t v, rfl⟩
          ⟨hlt, not_lt.mp ht⟩⟩
        · exact iff_of_false (fun heq => Except.noConfusion heq)
            (fun hc => absurd hlt (Nat.not_lt.mpr hc))
        · exact iff_of_false (fun heq => Except.noConfusion heq)
            (fun hc => absurd hc.2 ht)

/-- C4: within one run, any two encodings under the same
`(secret, field, cohort)` key use the identical permanent randomized
response (computed once and cached), whatever values are encoded and
whatever the prior cache and stream state; and the instantaneous response
is freshly sampled per call — witnessed by a run whose two reports differ
in their output bits while using the identical cached permanent
response. -/
theorem c4_prr_cached_irr_fresh :
    (∀ (cfg : RapporConfig) (secret : String) (fieldIndex cohort : Nat)
        (v1 v2 : String) (cache : PrrCache) (st : RandState),
        (rapporEncode cfg secret fieldIndex cohort v2
            (rapporEncode cfg secret fieldIndex cohort v1 cache st).cache
            (rapporEncode cfg secret fieldIndex cohort v1 cache st).state).prrUsed
          = (rapporEncode cfg secret fieldIndex cohort v1 cache st).prrUsed) ∧
    (∃ (cfg : RapporConfig) (secret : String) (fieldIndex cohort : Nat)
        (v : String) (cache : PrrCache) (st : RandState),
        (rapporEncode cfg secret fieldIndex cohort v
            (rapporEncode cfg secret fieldIndex cohort v cache st).cache
            (rapporEncode cfg secret fieldIndex cohort v cache st).state).prrUsed
          = (rapporEncode cfg secret fieldIndex cohort v cache st).prrUsed ∧
        (rapporEncode cfg secret fieldIndex cohort v
            (rapporEncode cfg secret fieldIndex cohort v cache st).cache
            (rapporEncode cfg secret fieldIndex cohort v cache st).state).report.bits
          ≠ (rapporEncode cfg secret fieldIndex cohort v cache st).report.bits) := by
  refine ⟨rapporEncode_prr_stable, ?_⟩
  exact ⟨⟨1, 1, 0, 0, mkRat 1 2, 1⟩, "s", 1, 0, "v", ⟨[]⟩,
    ⟨fun n => if n = 1 then 0 else mkRat 3 4, 0⟩, by decide, by decide⟩

/-- C5: for every valid config, cohort and string value — the empty
string included — `mapToBloom` is deterministic: identical arguments give
the identical `k`-bit vector. -/
theorem c5_mapToBloom_deterministic (cfg : RapporConfig) (hcfg : cfg.Valid)
    (cohort : Nat) (v : String) :
    mapToBloom v cohort cfg = mapToBloom v cohort cfg ∧
    (mapToBloom v cohort cfg).length = cfg.k :=
  ⟨rfl, mapToBloom_length v cohort cfg⟩

/-- Witness for C5 on a valid 16-bit two-hash config at the empty
string. -/
theorem c5_mapToBloom_deterministic_witness :
    RapporConfig.Valid ⟨16, 2, mkRat 1 2, mkRat 1 4, mkRat 3 4, 1⟩ ∧
    (mapToBloom "" 0 ⟨16, 2, mkRat 1 2, mkRat 1 4, mkRat 3 4, 1⟩
        = mapToBloom "" 0 ⟨16, 2, mkRat 1 2, mkRat 1 4, mkRat 3 4, 1⟩ ∧
      (mapToBloom "" 0 ⟨16, 2, mkRat 1 2, mkRat 1 4, mkRat 3 4, 1⟩).length
        = 16) :=
  ⟨by decide, c5_mapToBloom_deterministic
    ⟨16, 2, mkRat 1 2, mkRat 1 4, mkRat 3 4, 1⟩ (by decide) 0 ""⟩

/-- C6: RandomizerConfig construction fails with InvalidConfig exactly
when some probability is outside [0,1], some of `k, h, m, t` is
non-positive, or `h > k`; in particular `f = 3/2` and `t = 0` are
rejected while the boundary values `f = 0`, `f = 1` and `t = 1` are
accepted. -/
theorem c6_config_validation :
    (∀ prm : RandomizerParams,
        RandomizerConfig.construct prm = Except.error CoreError.invalidConfig
          ↔ ((prm.f < 0 ∨ 1 < prm.f) ∨ (prm.p < 0 ∨ 1 < prm.p)
              ∨ (prm.q < 0 ∨ 1 < prm.q) ∨ prm.k ≤ 0 ∨ prm.h ≤ 0 ∨ prm.m ≤ 0
              ∨ prm.t ≤ 0 ∨ prm.k < prm.h)) ∧
    RandomizerConfig.construct ⟨3/2, 1/2, 1/2, 16, 2, 1, 1⟩
      = Except.error CoreError.invalidConfig ∧
    RandomizerConfig.construct ⟨1/2, 1/2, 1/2, 16, 2, 1, 0⟩
      = Except.error CoreError.invalidConfig ∧
    RandomizerConfig.construct ⟨0, 1/2, 1/2, 16, 2, 1, 1⟩
      = Except.ok ⟨0, 1/2, 1/2, 16, 2, 1, 1⟩ ∧
    RandomizerConfig.construct ⟨1, 1/2, 1/2, 16, 2, 1, 1⟩
      = Except.ok ⟨1, 1/2, 1/2, 16, 2, 1, 1⟩ := by
  refine ⟨fun prm => ?_, ?_, ?_, ?_, ?_⟩
  · unfold RandomizerConfig.construct
    split
    next hc => exact iff_of_true rfl (by tauto)
    next hc =>
      exact iff_of_false (fun heq => Except.noConfusion heq)
        (fun hr => hc (by tauto))
  · rw [RandomizerConfig.construct]
    norm_num
  · rw [RandomizerConfig.construct]
    norm_num
  · rw [RandomizerConfig.construct]
    norm_num
  · rw [RandomizerConfig.construct]
    norm_num

/-- C7: `test_stable_config_parser.main` raises its exception exactly when
the two outputs of the twice-invoked identical command differ; on
byte-identical outputs it prints PASS and returns 0. -/
theorem c7_stable_test (o1 o2 : List Nat) :
    (stableConfigTestMain o1 o2 = ParserTestOutcome.raised stableTestExnMsg
      ↔ o1 ≠ o2) ∧
    (o1 = o2 →
      stableConfigTestMain o1 o2 = ParserTestOutcome.passed "PASS" 0) := by
  unfold stableConfigTestMain
  by_cases h : o1 = o2
  · subst h
    simp
  · simp [h]

/-- Witness for C7 on equal outputs: PASS with exit code 0. -/
theorem c7_stable_test_witness :
    stableConfigTestMain [7, 7] [7, 7] = ParserTestOutcome.passed "PASS" 0 :=
  (c7_stable_test [7, 7] [7, 7]).2 rfl

/-- C8: `ModuleNameRandomizer.randomize` with `for_private_release = True`
selects the private-release config and output files, with `False` (also
the default) the standard pair; both invoke `randomizeUsingRappor` on
field index 1 with bloom filters enabled. -/
theorem c8_module_name_selection (entries : List ProtoEntry) :
    moduleNameRandomize entries true
      = { entries := entries
        , fieldTriples := [(1, true, FileUtilName.RAPPOR_MODULE_NAME_PR_CONFIG)]
        , outputFile := FileUtilName.MODULE_NAME_PR_RANDOMIZER_OUTPUT_FILE_NAME } ∧
    moduleNameRandomize entries false
      = { entries := entries
        , fieldTriples := [(1, true, FileUtilName.RAPPOR_MODULE_NAME_CONFIG)]
        , outputFile := FileUtilName.MODULE_NAME_RANDOMIZER_OUTPUT_FILE_NAME } ∧
    moduleNameRandomize entries = moduleNameRandomize entries false :=
  ⟨rfl, rfl, rfl⟩

/-- C9: `container_util.main` always raises NameError: the name
`_process_shuffler_yaml_file` its first statement calls is bound nowhere
in the module. -/
theorem c9_container_util_main_name_error :
    "_process_shuffler_yaml_file" ∉ containerUtilModuleNames ∧
    containerUtilMain
      = Except.error (PyError.nameError "_process_shuffler_yaml_file") :=
  ⟨by decide, by rfl⟩

/-- C10: `buildUsageByHourJs` skips the first CSV line and maps every
remaining row to `estimate = max(row[1], 0)`,
`low = max(row[1] - 1.96*row[2], 0)` and the unclamped
`high = row[1] + 1.96*row[2]`; on the row `(2, -10, 1)` the computed high
is strictly below the computed low. -/
theorem c10_viz_interval_clamping :
    (∀ rows : List UsageRow,
        buildUsageByHourData rows = (rows.drop 1).map vizPointOfRow) ∧
    (∀ row : UsageRow,
        (vizPointOfRow row).estimate = max row.value 0 ∧
        (vizPointOfRow row).low = max (row.value - 196/100 * row.stdErr) 0 ∧
        (vizPointOfRow row).high = row.value + 196/100 * row.stdErr) ∧
    (vizPointOfRow ⟨2, -10, 1⟩).high < (vizPointOfRow ⟨2, -10, 1⟩).low := by
  refine ⟨buildUsageByHourData_eq, fun row => ⟨rfl, rfl, rfl⟩, ?_⟩
  norm_num [vizPointOfRow]

end Cobalt
